import Mathlib

/-!
Verification of the Rapyd payment-connector adapter
(`crates/router/src/connector/rapyd.rs`).

Rust strings and byte buffers are embedded as `List Nat` of byte values
(Rust strings are UTF-8 byte sequences and every string the connector
signs or compares is consumed through `as_bytes`). Machine words inside
SHA-256 are `Nat` reduced modulo `2 ^ 32` where the source wraps.
Fallible Rust functions returning `CustomResult` become `Except`.
-/

namespace Rapyd

/-- Byte values of a Lean string literal; used only for ASCII literals,
where the UTF-8 bytes coincide with the character codes. -/
def str2bytes (s : String) : List Nat := s.data.map Char.toNat

/-- Lower-case hex digit (as ASCII byte) of a value below 16; mirrors the
alphabet of Rust `hex::encode`. -/
def hexDigit (n : Nat) : Nat := if n < 10 then 48 + n else 87 + n

/-- `hex::encode`: each byte becomes two lower-case hex digits. -/
def hexEncode : List Nat → List Nat
  | [] => []
  | b :: rest => hexDigit (b / 16) :: hexDigit (b % 16) :: hexEncode rest

theorem hexEncode_lt (bs : List Nat) (hbs : ∀ b ∈ bs, b < 256) :
    ∀ b ∈ hexEncode bs, b < 256 := by
  induction bs with
  | nil => intro b hb; cases hb
  | cons a rest ih =>
      have ha : a < 256 := hbs a (List.mem_cons_self a rest)
      have hrest : ∀ b ∈ rest, b < 256 := fun b hb => hbs b (List.mem_cons_of_mem a hb)
      intro b hb
      simp only [hexEncode, List.mem_cons] at hb
      rcases hb with h | h | h
      · subst h; unfold hexDigit; split <;> omega
      · subst h; unfold hexDigit; split <;> omega
      · exact ih hrest b h

/-- Character of the URL-safe base64 alphabet (`A–Z a–z 0–9 - _`) at a
six-bit index; mirrors `base64::engine::general_purpose::URL_SAFE`. -/
def b64Char (i : Nat) : Nat :=
  if i < 26 then 65 + i
  else if i < 52 then 97 + (i - 26)
  else if i < 62 then 48 + (i - 52)
  else if i = 62 then 45
  else 95

/-- Inverse of the URL-safe base64 alphabet: six-bit value of an ASCII
byte, `none` off the alphabet. -/
def b64Inv (c : Nat) : Option Nat :=
  if 65 ≤ c ∧ c ≤ 90 then some (c - 65)
  else if 97 ≤ c ∧ c ≤ 122 then some (c - 71)
  else if 48 ≤ c ∧ c ≤ 57 then some (c + 4)
  else if c = 45 then some 62
  else if c = 95 then some 63
  else none

/-- URL-safe base64 encoding with padding, three input bytes per four
output characters (`=` is byte 61). -/
def b64Encode : List Nat → List Nat
  | [] => []
  | [a] => [b64Char (a / 4), b64Char (a % 4 * 16), 61, 61]
  | [a, b] => [b64Char (a / 4), b64Char (a % 4 * 16 + b / 16), b64Char (b % 16 * 4), 61]
  | a :: b :: c :: rest =>
      b64Char (a / 4) :: b64Char (a % 4 * 16 + b / 16) ::
        b64Char (b % 16 * 4 + c / 64) :: b64Char (c % 64) :: b64Encode rest

/-- Strict URL-safe base64 decoding with canonical padding, four
characters per chunk; rejects stray length, non-alphabet characters and
non-zero trailing bits, as the strict engine does. -/
def b64Decode : List Nat → Option (List Nat)
  | [] => some []
  | c1 :: c2 :: c3 :: c4 :: rest =>
      match b64Inv c1, b64Inv c2 with
      | some v1, some v2 =>
          if c3 = 61 then
            if c4 = 61 ∧ rest = [] ∧ v2 % 16 = 0 then
              some [v1 * 4 + v2 / 16]
            else none
          else
            match b64Inv c3 with
            | some v3 =>
                if c4 = 61 then
                  if rest = [] ∧ v3 % 4 = 0 then
                    some [v1 * 4 + v2 / 16, v2 % 16 * 16 + v3 / 4]
                  else none
                else
                  match b64Inv c4, b64Decode rest with
                  | some v4, some tail =>
                      some ((v1 * 4 + v2 / 16) :: (v2 % 16 * 16 + v3 / 4) ::
                        ((v3 % 4 * 64 + v4) :: tail))
                  | _, _ => none
            | none => none
      | _, _ => none
  | _ => none

theorem b64Inv_b64Char : ∀ i : Fin 64, b64Inv (b64Char i.val) = some i.val := by
  decide

theorem b64Inv_b64Char_of_lt {i : Nat} (h : i < 64) : b64Inv (b64Char i) = some i :=
  b64Inv_b64Char ⟨i, h⟩

theorem b64Char_ne_pad : ∀ i : Fin 64, b64Char i.val ≠ 61 := by
  decide

theorem b64Char_ne_pad_of_lt {i : Nat} (h : i < 64) : b64Char i ≠ 61 :=
  b64Char_ne_pad ⟨i, h⟩

/-- Strict decoding inverts encoding on genuine byte lists. -/
theorem b64_roundtrip : ∀ bs : List Nat, (∀ b ∈ bs, b < 256) →
    b64Decode (b64Encode bs) = some bs
  | [], _ => rfl
  | [a], h => by
      have ha : a < 256 := h a (by simp)
      have h1 : a / 4 < 64 := by omega
      have h2 : a % 4 * 16 < 64 := by omega
      simp only [b64Encode, b64Decode, b64Inv_b64Char_of_lt h1, b64Inv_b64Char_of_lt h2]
      have hz : a % 4 * 16 % 16 = 0 := by omega
      simp [hz]
      omega
  | [a, b], h => by
      have ha : a < 256 := h a (by simp)
      have hb : b < 256 := h b (by simp)
      have h1 : a / 4 < 64 := by omega
      have h2 : a % 4 * 16 + b / 16 < 64 := by omega
      have h3 : b % 16 * 4 < 64 := by omega
      simp only [b64Encode, b64Decode, b64Inv_b64Char_of_lt h1, b64Inv_b64Char_of_lt h2,
        b64Inv_b64Char_of_lt h3]
      have hne : ¬ b64Char (b % 16 * 4) = 61 := b64Char_ne_pad_of_lt h3
      have hz : b % 16 * 4 % 4 = 0 := by omega
      simp [hne, hz]
      omega
  | a :: b :: c :: rest, h => by
      have ha : a < 256 := h a (by simp)
      have hb : b < 256 := h b (by simp)
      have hc : c < 256 := h c (by simp)
      have hrest : ∀ x ∈ rest, x < 256 := by
        intro x hx
        exact h x (by simp [hx])
      have h1 : a / 4 < 64 := by omega
      have h2 : a % 4 * 16 + b / 16 < 64 := by omega
      have h3 : b % 16 * 4 + c / 64 < 64 := by omega
      have h4 : c % 64 < 64 := by omega
      have hne3 : ¬ b64Char (b % 16 * 4 + c / 64) = 61 := b64Char_ne_pad_of_lt h3
      have hne4 : ¬ b64Char (c % 64) = 61 := b64Char_ne_pad_of_lt h4
      match rest, hrest with
      | [], _ =>
          simp only [b64Encode, b64Decode, b64Inv_b64Char_of_lt h1, b64Inv_b64Char_of_lt h2,
            b64Inv_b64Char_of_lt h3, b64Inv_b64Char_of_lt h4]
          simp [hne3, hne4]
          omega
      | r :: rs, hr =>
          have ih := b64_roundtrip (r :: rs) hr
          simp only [b64Encode]
          simp only [b64Decode, b64Inv_b64Char_of_lt h1, b64Inv_b64Char_of_lt h2,
            b64Inv_b64Char_of_lt h3, b64Inv_b64Char_of_lt h4]
          simp [hne3, hne4, ih]
          omega

/-! ### SHA-256 and HMAC-SHA256 (`ring::hmac` with `HMAC_SHA256`)

Words are `Nat` values kept below `2 ^ 32`; additions wrap modulo
`2 ^ 32` as the hardware words of the source implementation do. -/

/-- 32-bit wrapping addition. -/
def add32 (a b : Nat) : Nat := (a + b) % 4294967296

/-- Right rotation of a 32-bit word. -/
def rotr (n x : Nat) : Nat := x / 2 ^ n + x % 2 ^ n * 2 ^ (32 - n)

/-- SHA-256 round constants (decimal renderings of the FIPS 180-4
values). -/
def shaK : List Nat :=
  [1116352408, 1899447441, 3049323471, 3921009573, 961987163,
   1508970993, 2453635748, 2870763221, 3624381080, 310598401,
   607225278, 1426881987, 1925078388, 2162078206, 2614888103,
   3248222580, 3835390401, 4022224774, 264347078, 604807628,
   770255983, 1249150122, 1555081692, 1996064986, 2554220882,
   2821834349, 2952996808, 3210313671, 3336571891, 3584528711,
   113926993, 338241895, 666307205, 773529912, 1294757372,
   1396182291, 1695183700, 1986661051, 2177026350, 2456956037,
   2730485921, 2820302411, 3259730800, 3345764771, 3516065817,
   3600352804, 4094571909, 275423344, 430227734, 506948616,
   659060556, 883997877, 958139571, 1322822218, 1537002063,
   1747873779, 1955562222, 2024104815, 2227730452, 2361852424,
   2428436474, 2756734187, 3204031479, 3329325298]

/-- SHA-256 initial hash state (decimal renderings of the FIPS 180-4
values). -/
def shaH0 : List Nat :=
  [1779033703, 3144134277, 1013904242, 2773480762,
   1359893119, 2600822924, 528734635, 1541459225]

/-- Big-endian eight-byte rendering of the bit length. -/
def beBytes8 (n : Nat) : List Nat :=
  [n / 2 ^ 56 % 256, n / 2 ^ 48 % 256, n / 2 ^ 40 % 256, n / 2 ^ 32 % 256,
   n / 2 ^ 24 % 256, n / 2 ^ 16 % 256, n / 2 ^ 8 % 256, n % 256]

/-- SHA-256 padding: `0x80`, zeros to 56 mod 64, then the bit length. -/
def sha256pad (msg : List Nat) : List Nat :=
  msg ++ [128] ++ List.replicate ((64 - (msg.length + 9) % 64) % 64) 0 ++
    beBytes8 (msg.length * 8)

/-- Big-endian 32-bit words of a byte list. -/
def bytesToWords : List Nat → List Nat
  | a :: b :: c :: d :: rest => (((a * 256 + b) * 256 + c) * 256 + d) :: bytesToWords rest
  | _ => []

/-- Big-endian bytes of a list of 32-bit words. -/
def wordsToBytes : List Nat → List Nat
  | [] => []
  | w :: rest =>
      w / 2 ^ 24 % 256 :: w / 2 ^ 16 % 256 :: w / 2 ^ 8 % 256 :: w % 256 :: wordsToBytes rest

/-- Message-schedule sigma-0. -/
def ssig0 (x : Nat) : Nat := rotr 7 x ^^^ rotr 18 x ^^^ x / 2 ^ 3

/-- Message-schedule sigma-1. -/
def ssig1 (x : Nat) : Nat := rotr 17 x ^^^ rotr 19 x ^^^ x / 2 ^ 10

/-- Compression Sigma-0. -/
def bsig0 (x : Nat) : Nat := rotr 2 x ^^^ rotr 13 x ^^^ rotr 22 x

/-- Compression Sigma-1. -/
def bsig1 (x : Nat) : Nat := rotr 6 x ^^^ rotr 11 x ^^^ rotr 25 x

/-- Choice function. -/
def shaCh (x y z : Nat) : Nat := (x &&& y) ^^^ ((x ^^^ 4294967295) &&& z)

/-- Majority function. -/
def shaMaj (x y z : Nat) : Nat := (x &&& y) ^^^ (x &&& z) ^^^ (y &&& z)

/-- Extend the sixteen block words by `n` schedule words. -/
def extendSchedule : Nat → List Nat → List Nat
  | 0, w => w
  | n + 1, w =>
      extendSchedule n (w ++ [add32
        (add32 (ssig1 (w.getD (w.length - 2) 0)) (w.getD (w.length - 7) 0))
        (add32 (ssig0 (w.getD (w.length - 15) 0)) (w.getD (w.length - 16) 0))])

/-- One working state of the compression loop. -/
structure ShaState where
  a : Nat
  b : Nat
  c : Nat
  d : Nat
  e : Nat
  f : Nat
  g : Nat
  h : Nat

/-- The 64-round compression loop over paired round constants and
schedule words. -/
def compressRounds : List (Nat × Nat) → ShaState → ShaState
  | [], s => s
  | (k, w) :: rest, s =>
      compressRounds rest
        { a := add32 (add32 (add32 s.h (bsig1 s.e)) (add32 (shaCh s.e s.f s.g) k))
            (add32 w (add32 (bsig0 s.a) (shaMaj s.a s.b s.c))),
          b := s.a, c := s.b, d := s.c,
          e := add32 s.d (add32 (add32 s.h (bsig1 s.e)) (add32 (shaCh s.e s.f s.g) (add32 k w))),
          f := s.e, g := s.f, h := s.g }

/-- Process one 64-byte block into the running hash. -/
def processBlock (hs : List Nat) (block : List Nat) : List Nat :=
  let w := extendSchedule 48 (bytesToWords block)
  let s := compressRounds (shaK.zip w)
    { a := hs.getD 0 0, b := hs.getD 1 0, c := hs.getD 2 0, d := hs.getD 3 0,
      e := hs.getD 4 0, f := hs.getD 5 0, g := hs.getD 6 0, h := hs.getD 7 0 }
  [add32 (hs.getD 0 0) s.a, add32 (hs.getD 1 0) s.b, add32 (hs.getD 2 0) s.c,
   add32 (hs.getD 3 0) s.d, add32 (hs.getD 4 0) s.e, add32 (hs.getD 5 0) s.f,
   add32 (hs.getD 6 0) s.g, add32 (hs.getD 7 0) s.h]

/-- Fold the padded message through the compression function, 64 bytes
at a time; the fuel is an upper bound on the block count. -/
def processBlocks : Nat → List Nat → List Nat → List Nat
  | 0, hs, _ => hs
  | fuel + 1, hs, bytes =>
      match bytes with
      | [] => hs
      | _ => processBlocks fuel (processBlock hs (bytes.take 64)) (bytes.drop 64)

/-- SHA-256 of a byte list. -/
def sha256 (msg : List Nat) : List Nat :=
  wordsToBytes (processBlocks (sha256pad msg).length shaH0 (sha256pad msg))

/-- HMAC-SHA256 (`ring::hmac::sign` with `HMAC_SHA256`): 64-byte block
size, `0x36`/`0x5c` pads. -/
def hmacSha256 (key msg : List Nat) : List Nat :=
  let k0 := if key.length > 64 then sha256 key else key
  let kp := k0 ++ List.replicate (64 - k0.length) 0
  sha256 (kp.map (fun b => b ^^^ 92) ++ sha256 (kp.map (fun b => b ^^^ 54) ++ msg))

theorem sha256_length (msg : List Nat) : (sha256 msg).length = 32 := by
  have hw : ∀ hs bytes fuel, hs.length = 8 →
      (processBlocks fuel hs bytes).length = 8 := by
    intro hs bytes fuel
    induction fuel generalizing hs bytes with
    | zero => intro h; simpa [processBlocks] using h
    | succ n ih =>
        intro h
        match bytes with
        | [] => simpa [processBlocks] using h
        | x :: xs =>
            simp only [processBlocks]
            exact ih _ _ (by simp [processBlock])
  have hwb : ∀ ws : List Nat, (wordsToBytes ws).length = 4 * ws.length := by
    intro ws
    induction ws with
    | nil => simp [wordsToBytes]
    | cons w rest ih => simp [wordsToBytes, ih]; ring
  unfold sha256
  rw [hwb, hw _ _ _ (by simp [shaH0])]

theorem sha256_lt (msg : List Nat) : ∀ b ∈ sha256 msg, b < 256 := by
  have hwb : ∀ ws : List Nat, ∀ b ∈ wordsToBytes ws, b < 256 := by
    intro ws
    induction ws with
    | nil => intro b hb; cases hb
    | cons w rest ih =>
        intro b hb
        simp only [wordsToBytes, List.mem_cons] at hb
        rcases hb with h | h | h | h | h
        · omega
        · omega
        · omega
        · omega
        · exact ih b h
  intro b hb
  exact hwb _ b hb

/-! ### Connector data model (`connector/rapyd.rs` and the interfaces
it consumes) -/

/-- The connector-error taxonomy (`errors::ConnectorError`), restricted
to the variants the Rapyd connector can produce. -/
inductive ConnectorError where
  | ResponseDeserializationFailed
  | ResponseHandlingFailed
  | RequestEncodingFailed
  | MissingConnectorTransactionID
  | WebhookSourceVerificationFailed
  | WebhookEventTypeNotFound
  | WebhookBodyDecodingFailed
  | WebhookResourceObjectNotFound
  | NotImplementedFlow (flow : String)
  | NotSupported (message : String) (connector : String)
  | FailedToObtainAuthType
  deriving DecidableEq

/-- `rapyd::transformers::RapydAuthType`: the credential pair, with the
secret wrappers peeled (`peek` exposes the raw bytes at use sites). -/
structure RapydAuthType where
  access_key : List Nat
  secret_key : List Nat
  deriving DecidableEq

/-- Modelled from the spec: the canonical auth-shape enum
(`types::ConnectorAuthType`, outside src/); the Rapyd decoder consumes
the two-field body-key shape and rejects every other shape. -/
inductive ConnectorAuthType where
  | BodyKey (api_key : List Nat) (key1 : List Nat)
  | OtherShape
  deriving DecidableEq

/-- Modelled from the spec: `RapydAuthType::try_from` (transformers
module, outside src/) — credential decoding fails upstream on a
non-matching shape, so the engine is never invoked there. -/
def rapyd_auth_try_from : ConnectorAuthType → Except ConnectorError RapydAuthType
  | .BodyKey api_key key1 => .ok { access_key := api_key, secret_key := key1 }
  | .OtherShape => .error .FailedToObtainAuthType

/-- Decimal ASCII digits of a natural number (fuel-based division
loop). -/
def natDecAux : Nat → Nat → List Nat
  | 0, _ => []
  | fuel + 1, n => if n < 10 then [48 + n] else natDecAux fuel (n / 10) ++ [48 + n % 10]

/-- Decimal ASCII digits of a natural number. -/
def natDecBytes (n : Nat) : List Nat := natDecAux (n + 1) n

/-- The `i64` timestamp as its decimal string (Rust `Display`),
as bytes. -/
def intDecBytes (t : Int) : List Nat :=
  if t < 0 then 45 :: natDecBytes t.natAbs else natDecBytes t.natAbs

/-- `Rapyd::generate_signature`: concatenate method, path, salt,
timestamp, access key, secret key and body; HMAC-SHA256 under the raw
secret-key bytes; hex; URL-safe base64. -/
def generate_signature (auth : RapydAuthType) (http_method url_path body : List Nat)
    (timestamp : Int) (salt : List Nat) : Except ConnectorError (List Nat) :=
  let to_sign := http_method ++ url_path ++ salt ++ intDecBytes timestamp ++
    auth.access_key ++ auth.secret_key ++ body
  let tag := hmacSha256 auth.secret_key to_sign
  let hmac_sign := hexEncode tag
  let signature_value := b64Encode hmac_sign
  .ok signature_value

/-- HTTP methods the connector emits. -/
inductive Method where
  | Get
  | Post
  | Delete
  deriving DecidableEq

/-- The request descriptor produced by `build_request`
(`services::Request`): method, URL, ordered header list, optional
serialized body. -/
structure Request where
  method : Method
  url : List Nat
  headers : List (List Nat × List Nat)
  body : Option (List Nat)
  deriving DecidableEq

def contentTypeH : List Nat := str2bytes "Content-Type"

def appJsonH : List Nat := str2bytes "application/json"

def accessKeyH : List Nat := str2bytes "access_key"

def saltH : List Nat := str2bytes "salt"

def timestampH : List Nat := str2bytes "timestamp"

def signatureH : List Nat := str2bytes "signature"

/-- The four signing headers every flow attaches, in source order. -/
def signingHeaders (auth : RapydAuthType) (salt : List Nat) (timestamp : Int)
    (signature : List Nat) : List (List Nat × List Nat) :=
  [(accessKeyH, auth.access_key), (saltH, salt),
   (timestampH, intDecBytes timestamp), (signatureH, signature)]

/-- Authorize `build_request`: POST `{base}/v1/payments`, default
headers, then the flow Content-Type header, then the signing headers;
the serialized body (produced by the external serializer) is signed and
transmitted unchanged. `defaults` is the transport layer's default
header list (`attach_default_headers`, outside src/). -/
def build_request_authorize (defaults : List (List Nat × List Nat))
    (auth_type : ConnectorAuthType) (req_body : List Nat) (timestamp : Int)
    (salt : List Nat) (base_url : List Nat) : Except ConnectorError (Option Request) :=
  match rapyd_auth_try_from auth_type with
  | .error e => .error e
  | .ok auth =>
      match generate_signature auth (str2bytes "post") (str2bytes "/v1/payments")
          req_body timestamp salt with
      | .error e => .error e
      | .ok signature =>
          .ok (some
            { method := .Post
              url := base_url ++ str2bytes "/v1/payments"
              headers := defaults ++ [(contentTypeH, appJsonH)] ++
                signingHeaders auth salt timestamp signature
              body := some req_body })

/-- Capture `build_request`: POST `{base}/v1/payments/{id}/capture`,
same header assembly as Authorize. -/
def build_request_capture (defaults : List (List Nat × List Nat))
    (auth_type : ConnectorAuthType) (transaction_id : List Nat) (req_body : List Nat)
    (timestamp : Int) (salt : List Nat) (base_url : List Nat) :
    Except ConnectorError (Option Request) :=
  match rapyd_auth_try_from auth_type with
  | .error e => .error e
  | .ok auth =>
      let url_path := str2bytes "/v1/payments/" ++ transaction_id ++ str2bytes "/capture"
      match generate_signature auth (str2bytes "post") url_path req_body timestamp salt with
      | .error e => .error e
      | .ok signature =>
          .ok (some
            { method := .Post
              url := base_url ++ url_path
              headers := defaults ++ [(contentTypeH, appJsonH)] ++
                signingHeaders auth salt timestamp signature
              body := some req_body })

/-- Refund Execute `build_request`: POST `{base}/v1/refunds`; the
builder chain attaches the default headers and the signing headers but —
unlike every other bodied flow — never the flow Content-Type header
returned by the Refund Execute `get_headers`. -/
def build_request_refund_execute (defaults : List (List Nat × List Nat))
    (auth_type : ConnectorAuthType) (req_body : List Nat) (timestamp : Int)
    (salt : List Nat) (base_url : List Nat) : Except ConnectorError (Option Request) :=
  match rapyd_auth_try_from auth_type with
  | .error e => .error e
  | .ok auth =>
      match generate_signature auth (str2bytes "post") (str2bytes "/v1/refunds")
          req_body timestamp salt with
      | .error e => .error e
      | .ok signature =>
          .ok (some
            { method := .Post
              url := base_url ++ str2bytes "/v1/refunds"
              headers := defaults ++ signingHeaders auth salt timestamp signature
              body := some req_body })

/-- Modelled from the spec: the transaction-reference union consumed by
the Sync flow (`types::ResponseId`, outside src/) — a reference either
resolves to an id string or it does not. -/
inductive ResponseId where
  | ConnectorTransactionId (id : List Nat)
  | EncodedData (data : List Nat)
  | NoResponseId
  deriving DecidableEq

/-- Modelled from the spec: `ResponseId::get_connector_transaction_id`
(outside src/) — only a plain connector transaction id resolves. -/
def get_connector_transaction_id : ResponseId → Option (List Nat)
  | .ConnectorTransactionId id => some id
  | .EncodedData _ => none
  | .NoResponseId => none

/-- Sync `get_url`: `{base}/v1/payments/{id}`, failing with
`MissingConnectorTransactionID` when the reference does not resolve. -/
def get_url_psync (base_url : List Nat) (transaction_id : ResponseId) :
    Except ConnectorError (List Nat) :=
  match get_connector_transaction_id transaction_id with
  | some id => .ok (base_url ++ str2bytes "/v1/payments/" ++ id)
  | none => .error .MissingConnectorTransactionID

/-- Sync `build_request`: GET with no body; the unresolved transaction
reference aborts the build with `MissingConnectorTransactionID` right
after credential decoding, before any descriptor exists. -/
def build_request_psync (defaults : List (List Nat × List Nat))
    (auth_type : ConnectorAuthType) (transaction_id : ResponseId) (timestamp : Int)
    (salt : List Nat) (base_url : List Nat) : Except ConnectorError (Option Request) :=
  match rapyd_auth_try_from auth_type with
  | .error e => .error e
  | .ok auth =>
      match get_connector_transaction_id transaction_id with
      | none => .error .MissingConnectorTransactionID
      | some id =>
          let url_path := str2bytes "/v1/payments/" ++ id
          match generate_signature auth (str2bytes "get") url_path [] timestamp salt with
          | .error e => .error e
          | .ok signature =>
              .ok (some
                { method := .Get
                  url := base_url ++ url_path
                  headers := defaults ++ [(contentTypeH, appJsonH)] ++
                    signingHeaders auth salt timestamp signature
                  body := none })

/-! ### Response / error translation -/

/-- The provider's status envelope (`transformers::Status`), as consumed
by `build_error_response`: error code, optional status text, optional
message. -/
structure RapydResponseStatus where
  error_code : String
  status : Option String
  message : Option String
  deriving DecidableEq

/-- The provider's response schema (`transformers::RapydPaymentsResponse`);
only the status envelope is consumed in this file — the data payload
flows into the external `RouterData::try_from` conversion, modelled
below as an abstract conversion. -/
structure RapydPaymentsResponse where
  status : RapydResponseStatus
  deriving DecidableEq

/-- The provider's refund response schema
(`transformers::RefundResponse`); consumed only by the external
conversion, so its fields are not used here. -/
structure RefundResponse where
  id : String
  status : String
  deriving DecidableEq

/-- Modelled from the spec: the external attempt-status enum referenced
by the canonical error (left unset by this connector). -/
inductive AttemptStatus where
  | Charged
  | Failure
  | Pending
  deriving DecidableEq

/-- The canonical error (`types::ErrorResponse`). -/
structure ErrorResponse where
  status_code : Nat
  code : String
  message : String
  reason : Option String
  attempt_status : Option AttemptStatus
  connector_transaction_id : Option String
  deriving DecidableEq

/-- Modelled from the spec:
`utils::handle_json_response_deserialization_failure` (router utils,
outside src/) — the generic deserialization-failed handler receiving the
HTTP status code and the raw ASCII-escaped body. -/
def handle_json_response_deserialization_failure (status_code : Nat)
    (escaped_body : String) : Except ConnectorError ErrorResponse :=
  .ok
    { status_code := status_code
      code := "No error code"
      message := "Unknown error"
      reason := some escaped_body
      attempt_status := none
      connector_transaction_id := none }

/-- `ConnectorCommon::build_error_response` for Rapyd. The serde parse
of the raw body into `RapydPaymentsResponse` happens in an external
crate; its outcome is the `parsed` argument (`none` models a parse
failure on the raw body). -/
def build_error_response (status_code : Nat) (escaped_body : String)
    (parsed : Option RapydPaymentsResponse) : Except ConnectorError ErrorResponse :=
  match parsed with
  | some response_data =>
      .ok
        { status_code := status_code
          code := response_data.status.error_code
          message := response_data.status.status.getD ""
          reason := response_data.status.message
          attempt_status := none
          connector_transaction_id := none }
  | none => handle_json_response_deserialization_failure status_code escaped_body

/-! ### Flow response handlers

Each `handle_response` first parses the raw body into the provider
schema (serde, external; outcome is the `parsed` argument) and then
converts through the external `RouterData::try_from` (the `conv`
argument; `none` models its failure, mapped to
`ResponseHandlingFailed`). -/

/-- Authorize `handle_response`. -/
def handle_response_authorize {α : Type} (parsed : Option RapydPaymentsResponse)
    (conv : RapydPaymentsResponse → Option α) : Except ConnectorError α :=
  match parsed with
  | none => .error .ResponseDeserializationFailed
  | some response =>
      match conv response with
      | some d => .ok d
      | none => .error .ResponseHandlingFailed

/-- Void `handle_response`. -/
def handle_response_void {α : Type} (parsed : Option RapydPaymentsResponse)
    (conv : RapydPaymentsResponse → Option α) : Except ConnectorError α :=
  match parsed with
  | none => .error .ResponseDeserializationFailed
  | some response =>
      match conv response with
      | some d => .ok d
      | none => .error .ResponseHandlingFailed

/-- Sync `handle_response`. -/
def handle_response_psync {α : Type} (parsed : Option RapydPaymentsResponse)
    (conv : RapydPaymentsResponse → Option α) : Except ConnectorError α :=
  match parsed with
  | none => .error .ResponseDeserializationFailed
  | some response =>
      match conv response with
      | some d => .ok d
      | none => .error .ResponseHandlingFailed

/-- Capture `handle_response`. -/
def handle_response_capture {α : Type} (parsed : Option RapydPaymentsResponse)
    (conv : RapydPaymentsResponse → Option α) : Except ConnectorError α :=
  match parsed with
  | none => .error .ResponseDeserializationFailed
  | some response =>
      match conv response with
      | some d => .ok d
      | none => .error .ResponseHandlingFailed

/-- Refund Execute `handle_response`: the parse failure is tagged
`RequestEncodingFailed` in the source (line 731), not
`ResponseDeserializationFailed`. -/
def handle_response_refund_execute {α : Type} (parsed : Option RefundResponse)
    (conv : RefundResponse → Option α) : Except ConnectorError α :=
  match parsed with
  | none => .error .RequestEncodingFailed
  | some response =>
      match conv response with
      | some d => .ok d
      | none => .error .ResponseHandlingFailed

/-- Refund Sync `handle_response`. -/
def handle_response_rsync {α : Type} (parsed : Option RefundResponse)
    (conv : RefundResponse → Option α) : Except ConnectorError α :=
  match parsed with
  | none => .error .ResponseDeserializationFailed
  | some response =>
      match conv response with
      | some d => .ok d
      | none => .error .ResponseHandlingFailed

/-! ### Capture-method validation -/

/-- The canonical capture-method enum (`enums::CaptureMethod`). -/
inductive CaptureMethod where
  | Automatic
  | Manual
  | ManualMultiple
  | Scheduled
  deriving DecidableEq

/-- Modelled from the spec: the default capture method
(`enums::CaptureMethod::default`, diesel_models crate outside src/) is
`Automatic`. -/
def captureMethodDefault : CaptureMethod := .Automatic

/-- Modelled from the spec: the display rendering of a capture method
(strum, outside src/), used in the unsupported-method error message. -/
def captureMethodToString : CaptureMethod → String
  | .Automatic => "automatic"
  | .Manual => "manual"
  | .ManualMultiple => "manual_multiple"
  | .Scheduled => "scheduled"

/-- Modelled from the spec:
`connector_utils::construct_not_supported_error_report` (outside src/) —
a structured unsupported error naming the offending method and the
connector. -/
def construct_not_supported_error_report (capture_method : CaptureMethod)
    (connector : String) : ConnectorError :=
  .NotSupported (captureMethodToString capture_method) connector

/-- `ConnectorValidation::validate_capture_method` for Rapyd: a pure,
network-free compatibility check. -/
def validate_capture_method (capture_method : Option CaptureMethod) :
    Except ConnectorError Unit :=
  let cm := capture_method.getD captureMethodDefault
  match cm with
  | .Automatic | .Manual => .ok ()
  | .ManualMultiple | .Scheduled =>
      .error (construct_not_supported_error_report cm "rapyd")

/-! ### Webhook verification and event mapping

The merchant-secret resolution and the UTF-8/JSON decoding of the stored
secret into `RapydAuthType` are external collaborators (each decoding
failure fails closed with `WebhookSourceVerificationFailed`); the
functions below receive the decoded credentials. Header values and the
body are the raw inbound bytes. -/

/-- `get_webhook_source_verification_signature`: URL-safe base64 decode
of the `signature` header, failing closed. -/
def get_webhook_source_verification_signature (signature_header : List Nat) :
    Except ConnectorError (List Nat) :=
  match b64Decode signature_header with
  | some s => .ok s
  | none => .error .WebhookSourceVerificationFailed

/-- `get_webhook_source_verification_message`: the webhook string-to-sign
`https://{host}/webhooks/{merchant_id}/rapyd` then salt, timestamp,
access key, secret key and body, concatenated without separators. -/
def get_webhook_source_verification_message (auth : RapydAuthType)
    (host merchant_id salt timestamp body : List Nat) : List Nat :=
  str2bytes "https://" ++ host ++ str2bytes "/webhooks/" ++ merchant_id ++
    str2bytes "/rapyd" ++ salt ++ timestamp ++ auth.access_key ++ auth.secret_key ++ body

/-- `verify_webhook_source`: decode the inbound signature, recompute the
hex-encoded HMAC-SHA256 of the reconstructed message under the secret
key, and compare the byte sequences. -/
def verify_webhook_source (auth : RapydAuthType)
    (host merchant_id salt timestamp body signature_header : List Nat) :
    Except ConnectorError Bool :=
  match get_webhook_source_verification_signature signature_header with
  | .error _ => .error .WebhookSourceVerificationFailed
  | .ok signature =>
      let message := get_webhook_source_verification_message auth host merchant_id
        salt timestamp body
      let hmac_sign := hexEncode (hmacSha256 auth.secret_key message)
      .ok (hmac_sign == signature)

/-- The provider's webhook event tags
(`transformers::RapydWebhookObjectEventType`); the variant set is
exactly the one matched in `get_webhook_event_type`, with `Unknown` the
serde catch-all for unrecognized tags. -/
inductive RapydWebhookObjectEventType where
  | PaymentCompleted
  | PaymentCaptured
  | PaymentFailed
  | PaymentRefundFailed
  | PaymentRefundRejected
  | RefundCompleted
  | PaymentDisputeCreated
  | PaymentDisputeUpdated
  | Unknown
  deriving DecidableEq

/-- Modelled from the spec: the dispute status embedded in a dispute
webhook payload (transformers module, outside src/), from which the
dispute-updated sub-event is derived. -/
inductive WebhookDisputeStatus where
  | Won
  | Lost
  | Other
  deriving DecidableEq

/-- The canonical incoming-webhook events this connector produces. -/
inductive IncomingWebhookEvent where
  | PaymentIntentSuccess
  | PaymentIntentFailure
  | RefundSuccess
  | RefundFailure
  | DisputeOpened
  | DisputeWon
  | DisputeLost
  | EventNotSupported
  deriving DecidableEq

/-- Modelled from the spec: the `From` conversion of an embedded dispute
status to a canonical sub-event (transformers module, outside src/);
e.g. a won dispute maps to its own sub-event, not the generic
dispute-opened event. -/
def disputeStatusToEvent : WebhookDisputeStatus → IncomingWebhookEvent
  | .Won => .DisputeWon
  | .Lost => .DisputeLost
  | .Other => .EventNotSupported

/-- Payment payload of a webhook (`transformers::WebhookPaymentData`);
only the provider transaction id is consumed by reference extraction. -/
structure WebhookPaymentData where
  id : String
  deriving DecidableEq

/-- Refund payload of a webhook. -/
structure WebhookRefundData where
  id : String
  deriving DecidableEq

/-- Dispute payload of a webhook: the dispute token, the original
transaction id it disputes, and the embedded dispute status. -/
structure WebhookDisputeData where
  token : String
  original_transaction_id : String
  status : WebhookDisputeStatus
  deriving DecidableEq

/-- The tagged webhook payload union (`transformers::WebhookData`). -/
inductive WebhookData where
  | Payment (data : WebhookPaymentData)
  | Refund (data : WebhookRefundData)
  | Dispute (data : WebhookDisputeData)
  deriving DecidableEq

/-- A parsed inbound webhook (`transformers::RapydIncomingWebhook`):
event tag plus payload. The serde parse of the raw body is external;
its failure makes both accessors fail with `WebhookEventTypeNotFound`
before the logic below runs. -/
structure RapydIncomingWebhook where
  webhook_type : RapydWebhookObjectEventType
  data : WebhookData
  deriving DecidableEq

/-- Payment-side reference id kinds (`api_models::payments::PaymentIdType`). -/
inductive PaymentIdType where
  | ConnectorTransactionId (id : String)
  deriving DecidableEq

/-- Refund-side reference id kinds (`api_models::webhooks::RefundIdType`). -/
inductive RefundIdType where
  | ConnectorRefundId (id : String)
  deriving DecidableEq

/-- A webhook reference id (`api_models::webhooks::ObjectReferenceId`). -/
inductive ObjectReferenceId where
  | PaymentId (id : PaymentIdType)
  | RefundId (id : RefundIdType)
  deriving DecidableEq

/-- `get_webhook_object_reference_id` on a parsed webhook. -/
def get_webhook_object_reference_id (webhook : RapydIncomingWebhook) :
    Except ConnectorError ObjectReferenceId :=
  .ok (match webhook.data with
    | .Payment payment_data =>
        .PaymentId (.ConnectorTransactionId payment_data.id)
    | .Refund refund_data =>
        .RefundId (.ConnectorRefundId refund_data.id)
    | .Dispute dispute_data =>
        .PaymentId (.ConnectorTransactionId dispute_data.original_transaction_id))

/-- `get_webhook_event_type` on a parsed webhook. -/
def get_webhook_event_type (webhook : RapydIncomingWebhook) :
    Except ConnectorError IncomingWebhookEvent :=
  .ok (match webhook.webhook_type with
    | .PaymentCompleted | .PaymentCaptured => .PaymentIntentSuccess
    | .PaymentFailed => .PaymentIntentFailure
    | .PaymentRefundFailed | .PaymentRefundRejected => .RefundFailure
    | .RefundCompleted => .RefundSuccess
    | .PaymentDisputeCreated => .DisputeOpened
    | .Unknown => .EventNotSupported
    | .PaymentDisputeUpdated =>
        match webhook.data with
        | .Dispute data => disputeStatusToEvent data.status
        | _ => .EventNotSupported)

/-! ### Supporting lemmas -/

theorem hmacSha256_lt (key msg : List Nat) : ∀ b ∈ hmacSha256 key msg, b < 256 := by
  unfold hmacSha256
  exact sha256_lt _

/-! ### Claims -/

/-- C1: for every credentials pair, method, path, body, timestamp and
salt, `generate_signature` returns exactly the URL-safe base64 encoding
of the hex encoding of the HMAC-SHA256 — keyed by the secret key's raw
bytes — of the separator-free concatenation of method, path, salt, the
decimal timestamp, the access key, the secret key and the body; in
particular it never returns an error. -/
theorem generate_signature_spec (auth : RapydAuthType)
    (http_method url_path body : List Nat) (timestamp : Int) (salt : List Nat) :
    generate_signature auth http_method url_path body timestamp salt =
      .ok (b64Encode (hexEncode (hmacSha256 auth.secret_key
        (http_method ++ url_path ++ salt ++ intDecBytes timestamp ++
          auth.access_key ++ auth.secret_key ++ body)))) := rfl

/-- C5: for every HTTP status and every body parsing into the provider
schema, `build_error_response` copies the HTTP status, takes the
provider error code, takes the provider status text (or the default
empty string), takes the provider message as the reason, and leaves the
attempt status and connector transaction id unset. -/
theorem build_error_response_spec (status_code : Nat) (escaped_body : String)
    (r : RapydPaymentsResponse) :
    build_error_response status_code escaped_body (some r) =
      .ok
        { status_code := status_code
          code := r.status.error_code
          message := r.status.status.getD ""
          reason := r.status.message
          attempt_status := none
          connector_transaction_id := none } := rfl

/-- C6: `validate_capture_method` accepts `Automatic` and `Manual` and
rejects `ManualMultiple` and `Scheduled` with a structured
not-supported error naming the offending method and the connector
`rapyd`; it is a pure function, with no network interaction to model. -/
theorem validate_capture_method_spec :
    validate_capture_method (some .Automatic) = .ok () ∧
    validate_capture_method (some .Manual) = .ok () ∧
    validate_capture_method (some .ManualMultiple) =
      .error (.NotSupported "manual_multiple" "rapyd") ∧
    validate_capture_method (some .Scheduled) =
      .error (.NotSupported "scheduled" "rapyd") :=
  ⟨rfl, rfl, rfl, rfl⟩

/-- C10: an absent capture method is defaulted to `Automatic` and
accepted; it never produces the unsupported-capture-method error. -/
theorem validate_capture_method_none_spec :
    validate_capture_method none = validate_capture_method (some captureMethodDefault) ∧
    captureMethodDefault = .Automatic ∧
    validate_capture_method none = .ok () :=
  ⟨rfl, rfl, rfl⟩

/-- C7: a Sync request whose transaction reference does not resolve to
an id makes both `get_url` and `build_request` fail with
`MissingConnectorTransactionID`, producing no request descriptor. -/
theorem psync_missing_transaction_id_spec (defaults : List (List Nat × List Nat))
    (api_key key1 : List Nat) (transaction_id : ResponseId) (timestamp : Int)
    (salt base_url : List Nat)
    (h : get_connector_transaction_id transaction_id = none) :
    get_url_psync base_url transaction_id = .error .MissingConnectorTransactionID ∧
    build_request_psync defaults (.BodyKey api_key key1) transaction_id timestamp
      salt base_url = .error .MissingConnectorTransactionID := by
  constructor
  · simp [get_url_psync, h]
  · simp [build_request_psync, rapyd_auth_try_from, h]

theorem psync_missing_transaction_id_spec_witness :
    get_url_psync [] .NoResponseId = .error .MissingConnectorTransactionID ∧
    build_request_psync [] (.BodyKey [] []) .NoResponseId 0 [] [] =
      .error .MissingConnectorTransactionID :=
  psync_missing_transaction_id_spec [] [] [] .NoResponseId 0 [] [] rfl

/-- C8: on a parsed webhook, the event mapper sends payment
completed/captured to intent-success, payment failed to intent-failure,
refund failed/rejected to refund-failure, refund completed to
refund-success, dispute created to dispute-opened, dispute updated to
the sub-event derived from the embedded dispute status, and the
unrecognized catch-all to event-not-supported — always as a normal
`ok` result, never an error. -/
theorem get_webhook_event_type_spec :
    (∀ d, get_webhook_event_type ⟨.PaymentCompleted, d⟩ = .ok .PaymentIntentSuccess) ∧
    (∀ d, get_webhook_event_type ⟨.PaymentCaptured, d⟩ = .ok .PaymentIntentSuccess) ∧
    (∀ d, get_webhook_event_type ⟨.PaymentFailed, d⟩ = .ok .PaymentIntentFailure) ∧
    (∀ d, get_webhook_event_type ⟨.PaymentRefundFailed, d⟩ = .ok .RefundFailure) ∧
    (∀ d, get_webhook_event_type ⟨.PaymentRefundRejected, d⟩ = .ok .RefundFailure) ∧
    (∀ d, get_webhook_event_type ⟨.RefundCompleted, d⟩ = .ok .RefundSuccess) ∧
    (∀ d, get_webhook_event_type ⟨.PaymentDisputeCreated, d⟩ = .ok .DisputeOpened) ∧
    (∀ dd, get_webhook_event_type ⟨.PaymentDisputeUpdated, .Dispute dd⟩ =
      .ok (disputeStatusToEvent dd.status)) ∧
    (∀ d, get_webhook_event_type ⟨.Unknown, d⟩ = .ok .EventNotSupported) ∧
    (∀ w, ∃ e, get_webhook_event_type w = .ok e) :=
  ⟨fun _ => rfl, fun _ => rfl, fun _ => rfl, fun _ => rfl, fun _ => rfl,
   fun _ => rfl, fun _ => rfl, fun _ => rfl, fun _ => rfl, fun _ => ⟨_, rfl⟩⟩

/-- C9: on a parsed webhook payload, reference extraction returns the
connector transaction id for a payment, the connector refund id for a
refund, and — for a dispute — a payment reference carrying the original
transaction id, not the dispute token. -/
theorem get_webhook_object_reference_id_spec :
    (∀ t p, get_webhook_object_reference_id ⟨t, .Payment p⟩ =
      .ok (.PaymentId (.ConnectorTransactionId p.id))) ∧
    (∀ t r, get_webhook_object_reference_id ⟨t, .Refund r⟩ =
      .ok (.RefundId (.ConnectorRefundId r.id))) ∧
    (∀ t d, get_webhook_object_reference_id ⟨t, .Dispute d⟩ =
      .ok (.PaymentId (.ConnectorTransactionId d.original_transaction_id)) ∧
      (d.original_transaction_id ≠ d.token →
        get_webhook_object_reference_id ⟨t, .Dispute d⟩ ≠
          .ok (.PaymentId (.ConnectorTransactionId d.token)))) := by
  refine ⟨fun _ _ => rfl, fun _ _ => rfl, fun t d => ⟨rfl, fun hne hcontra => ?_⟩⟩
  simp only [get_webhook_object_reference_id, Except.ok.injEq,
    ObjectReferenceId.PaymentId.injEq, PaymentIdType.ConnectorTransactionId.injEq] at hcontra
  exact hne hcontra

theorem get_webhook_object_reference_id_spec_witness :
    get_webhook_object_reference_id
        ⟨.PaymentDisputeUpdated, .Dispute ⟨"dp_token", "pay_orig", .Won⟩⟩ ≠
      .ok (.PaymentId (.ConnectorTransactionId "dp_token")) :=
  (get_webhook_object_reference_id_spec.2.2 .PaymentDisputeUpdated
    ⟨"dp_token", "pay_orig", .Won⟩).2 (by decide)

/-- C3: for each flow, a provider response body that does not parse as
the provider schema makes `handle_response` return an error, never a
success; the five flows Authorize, Void, Sync, Capture and Refund Sync
tag it `ResponseDeserializationFailed`, while the Refund Execute handler
tags the same failure `RequestEncodingFailed` — which is not a
deserialization-failure result, contradicting the spec's propagation
policy. -/
theorem handle_response_parse_failure_spec :
    @handle_response_authorize Unit none (fun _ => none) =
      .error .ResponseDeserializationFailed ∧
    @handle_response_void Unit none (fun _ => none) =
      .error .ResponseDeserializationFailed ∧
    @handle_response_psync Unit none (fun _ => none) =
      .error .ResponseDeserializationFailed ∧
    @handle_response_capture Unit none (fun _ => none) =
      .error .ResponseDeserializationFailed ∧
    @handle_response_rsync Unit none (fun _ => none) =
      .error .ResponseDeserializationFailed ∧
    @handle_response_refund_execute Unit none (fun _ => none) =
      .error .RequestEncodingFailed ∧
    ConnectorError.RequestEncodingFailed ≠ ConnectorError.ResponseDeserializationFailed :=
  ⟨rfl, rfl, rfl, rfl, rfl, rfl, by decide⟩

/-- C4 (counterexample to the claim as stated): a successfully built
Refund Execute request carries the four signing headers but no
Content-Type header at all when the transport's default header list
carries none — `build_request` for this flow never attaches the flow's
Content-Type header. -/
theorem refund_execute_content_type_counterexample :
    ∃ r : Request,
      build_request_refund_execute [] (.BodyKey [] []) [] 0 [] [] = .ok (some r) ∧
      accessKeyH ∈ r.headers.map Prod.fst ∧
      saltH ∈ r.headers.map Prod.fst ∧
      timestampH ∈ r.headers.map Prod.fst ∧
      signatureH ∈ r.headers.map Prod.fst ∧
      contentTypeH ∉ r.headers.map Prod.fst := by
  refine ⟨_, rfl, ?_, ?_, ?_, ?_, ?_⟩
  · simp [signingHeaders]
  · simp [signingHeaders]
  · simp [signingHeaders]
  · simp [signingHeaders]
  · simp only [signingHeaders, List.nil_append, List.map_cons, List.map_nil]
    decide

/-- C4 (amended): every successfully built Authorize or Capture request
carries the four signing headers and the Content-Type
`application/json` header; a successfully built Refund Execute request
carries the four signing headers, but its header list carries
Content-Type exactly when the transport's default header list does —
the flow Content-Type header is never attached there. -/
theorem bodied_flow_headers_spec (defaults : List (List Nat × List Nat))
    (api_key key1 body_a body_c body_r transaction_id : List Nat) (timestamp : Int)
    (salt base_url : List Nat) :
    ∃ ra rc rr : Request,
      build_request_authorize defaults (.BodyKey api_key key1) body_a timestamp salt
        base_url = .ok (some ra) ∧
      build_request_capture defaults (.BodyKey api_key key1) transaction_id body_c
        timestamp salt base_url = .ok (some rc) ∧
      build_request_refund_execute defaults (.BodyKey api_key key1) body_r timestamp
        salt base_url = .ok (some rr) ∧
      ((contentTypeH, appJsonH) ∈ ra.headers ∧
        accessKeyH ∈ ra.headers.map Prod.fst ∧ saltH ∈ ra.headers.map Prod.fst ∧
        timestampH ∈ ra.headers.map Prod.fst ∧ signatureH ∈ ra.headers.map Prod.fst) ∧
      ((contentTypeH, appJsonH) ∈ rc.headers ∧
        accessKeyH ∈ rc.headers.map Prod.fst ∧ saltH ∈ rc.headers.map Prod.fst ∧
        timestampH ∈ rc.headers.map Prod.fst ∧ signatureH ∈ rc.headers.map Prod.fst) ∧
      (accessKeyH ∈ rr.headers.map Prod.fst ∧ saltH ∈ rr.headers.map Prod.fst ∧
        timestampH ∈ rr.headers.map Prod.fst ∧ signatureH ∈ rr.headers.map Prod.fst ∧
        (contentTypeH ∈ rr.headers.map Prod.fst ↔
          contentTypeH ∈ defaults.map Prod.fst)) := by
  have h1 : contentTypeH ≠ accessKeyH := by decide
  have h2 : contentTypeH ≠ saltH := by decide
  have h3 : contentTypeH ≠ timestampH := by decide
  have h4 : contentTypeH ≠ signatureH := by decide
  refine ⟨_, _, _, rfl, rfl, rfl, ?_, ?_, ?_⟩
  · refine ⟨by simp, by simp [signingHeaders], by simp [signingHeaders],
      by simp [signingHeaders], by simp [signingHeaders]⟩
  · refine ⟨by simp, by simp [signingHeaders], by simp [signingHeaders],
      by simp [signingHeaders], by simp [signingHeaders]⟩
  · refine ⟨by simp [signingHeaders], by simp [signingHeaders],
      by simp [signingHeaders], by simp [signingHeaders], ?_⟩
    simp [signingHeaders, h1, h2, h3, h4]

/-- C2: for every credential pair, host, merchant id, salt, timestamp
and body, a signature header carrying exactly the Signature Engine's
value for the webhook string-to-sign verifies to `ok true`, and any
header whose base64 decoding differs in any byte from the recomputed
hex-encoded HMAC-SHA256 verifies to `ok false`. -/
theorem verify_webhook_source_spec (auth : RapydAuthType)
    (host merchant_id salt timestamp body : List Nat) :
    verify_webhook_source auth host merchant_id salt timestamp body
      (b64Encode (hexEncode (hmacSha256 auth.secret_key
        (get_webhook_source_verification_message auth host merchant_id salt
          timestamp body)))) = .ok true ∧
    (∀ signature_header sig : List Nat,
      b64Decode signature_header = some sig →
      sig ≠ hexEncode (hmacSha256 auth.secret_key
        (get_webhook_source_verification_message auth host merchant_id salt
          timestamp body)) →
      verify_webhook_source auth host merchant_id salt timestamp body
        signature_header = .ok false) := by
  constructor
  · have hlt : ∀ b ∈ hexEncode (hmacSha256 auth.secret_key
        (get_webhook_source_verification_message auth host merchant_id salt
          timestamp body)), b < 256 :=
      hexEncode_lt _ (hmacSha256_lt _ _)
    have hrt := b64_roundtrip _ hlt
    simp [verify_webhook_source, get_webhook_source_verification_signature, hrt]
  · intro signature_header sig hdec hne
    simp only [verify_webhook_source, get_webhook_source_verification_signature, hdec]
    simp only [Except.ok.injEq]
    exact beq_eq_false_iff_ne.mpr fun h => hne h.symm

set_option maxRecDepth 100000 in
theorem verify_webhook_source_spec_witness :
    verify_webhook_source ⟨[97], [115]⟩ [104] [109] [120] [49] [123]
      (str2bytes "AAAA") = .ok false :=
  (verify_webhook_source_spec ⟨[97], [115]⟩ [104] [109] [120] [49] [123]).2
    (str2bytes "AAAA") [0, 0, 0] (by decide) (by decide)

end Rapyd
